import Mathlib

/-!
# FuzzyFarm: the TSK fuzzy inference engine and the irrigation rule base

A shallow embedding of `src/TSKEngine.h` and `src/IrrigationRules.h`, in two models.

* The exact model (namespace `FuzzyFarm`): every number is an exact rational `ℚ`.  All
  comparisons, branches and formulas are those of the source; rounding, overflow,
  infinities and NaN are absent, and the decimal literals of the source (`0.2f`, `0.05f`,
  `1.5f`, `1e-6`) are the decimal fractions they denote.  Statements that rest on
  comparisons and on exactly representable values hold on the C++ types as they stand;
  statements that rest on exact cancellation are statements about exact arithmetic.
* The binary model (namespace `FuzzyFarm.Binary`): the same source on `float` and
  `double` data, each operation rounded to binary32 or binary64, with infinities and NaN.
  It is used where the behaviour of the code depends on rounding, on the exact value of
  the `double` constant `1e-6`, or on NaN.
-/

namespace FuzzyFarm

/-! ## Definitions embedded from `TSKEngine.h` -/

/-- System inputs, the four readings of `struct SystemInputs`. -/
structure SystemInputs where
  soil_moisture : ℚ
  time_of_day : ℚ
  temperature : ℚ
  humidity : ℚ

/-- Triangular fuzzy set, `struct FuzzyTriangle { float a, b, c; }`. -/
structure FuzzyTriangle where
  a : ℚ
  b : ℚ
  c : ℚ

/-- Membership degree of `x`, `FuzzyTriangle::getMembership`, branch by branch. -/
def FuzzyTriangle.getMembership (t : FuzzyTriangle) (x : ℚ) : ℚ :=
  if t.a = t.b ∧ t.b = t.c then
    (if x = t.a then 1 else 0)
  else if t.a = t.b ∧ x ≤ t.b then
    1
  else if t.b = t.c ∧ x ≥ t.b then
    1
  else if x < t.a ∨ x > t.c then
    0
  else if x ≤ t.b then
    (x - t.a) / (t.b - t.a)
  else
    (t.c - x) / (t.c - t.b)

/-- Trapezoidal fuzzy set, `struct FuzzyTrapezoid { float a, b, c, d; }`. -/
structure FuzzyTrapezoid where
  a : ℚ
  b : ℚ
  c : ℚ
  d : ℚ

/-- Membership degree of `x`, `FuzzyTrapezoid::getMembership`, branch by branch. -/
def FuzzyTrapezoid.getMembership (z : FuzzyTrapezoid) (x : ℚ) : ℚ :=
  if x < z.a ∨ x > z.d then
    0
  else if x ≥ z.b ∧ x ≤ z.c then
    1
  else if x < z.b then
    (if z.b = z.a then 1 else (x - z.a) / (z.b - z.a))
  else if x > z.c then
    (if z.d = z.c then 1 else (z.d - x) / (z.d - z.c))
  else
    0

/-- Antecedent evaluator, `std::function<float(const SystemInputs&)>`. -/
abbrev AntecedentFunc := SystemInputs → ℚ

/-- Consequent evaluator, `std::function<float(const SystemInputs&)>`. -/
abbrev ConsequentFunc := SystemInputs → ℚ

/-- Rule of the engine, `class TSKRule`: its antecedents in insertion order and
its consequent. -/
structure TSKRule where
  antecedents : List AntecedentFunc
  consequent : ConsequentFunc

/-- Constructor `TSKRule(ConsequentFunc output_func)`: no antecedent yet. -/
def TSKRule.mk0 (output_func : ConsequentFunc) : TSKRule :=
  { antecedents := [], consequent := output_func }

/-- Method `addCondition`: `antecedents.push_back(condition)`. -/
def TSKRule.addCondition (r : TSKRule) (condition : AntecedentFunc) : TSKRule :=
  { r with antecedents := r.antecedents ++ [condition] }

/-- The `for` loop of `TSKRule::evaluate` over the remaining antecedents, with
the running `weight`: multiply the next degree in and `break` as soon as the
running product is exactly zero. -/
def TSKRule.weightLoop (inputs : SystemInputs) : List AntecedentFunc → ℚ → ℚ
  | [], weight => weight
  | func :: rest, weight =>
    if weight * func inputs = 0 then
      weight * func inputs
    else
      TSKRule.weightLoop inputs rest (weight * func inputs)

/-- Method `TSKRule::evaluate`: the pair `(weight, output_y)`. -/
def TSKRule.evaluate (r : TSKRule) (inputs : SystemInputs) : ℚ × ℚ :=
  if r.antecedents.isEmpty then
    (0, 0)
  else
    let weight := TSKRule.weightLoop inputs r.antecedents 1
    let output_y := if weight > 0 then r.consequent inputs else 0
    (weight, output_y)

/-- Controller, `class TSKController`: the rules in insertion order. -/
structure TSKController where
  rules : List TSKRule

/-- A default-constructed controller holds no rule. -/
def TSKController.empty : TSKController :=
  { rules := [] }

/-- Method `addRule`: `rules.push_back(rule)`. -/
def TSKController.addRule (ctrl : TSKController) (rule : TSKRule) : TSKController :=
  { rules := ctrl.rules ++ [rule] }

/-- Method `clearRules`: `rules.clear()`. -/
def TSKController.clearRules (_ctrl : TSKController) : TSKController :=
  { rules := [] }

/-- One iteration of the loop of `TSKController::compute` on the accumulator
`(numerator, denominator)`. -/
def TSKController.accumulate (inputs : SystemInputs) (acc : ℚ × ℚ) (rule : TSKRule) : ℚ × ℚ :=
  let result := rule.evaluate inputs
  let weight := result.1
  let y := result.2
  if weight > 0 then
    (acc.1 + weight * y, acc.2 + weight)
  else
    acc

/-- Method `TSKController::compute`. -/
def TSKController.compute (ctrl : TSKController) (inputs : SystemInputs) : ℚ :=
  let acc := ctrl.rules.foldl (TSKController.accumulate inputs) (0, 0)
  let numerator := acc.1
  let denominator := acc.2
  if denominator < 1 / 1000000 then
    0
  else
    let result := numerator / denominator
    if result < 0 then 0
    else if result > 10 then 10
    else result

/-! ## Definitions embedded from `IrrigationRules.h` -/

/-- Soil moisture "dry", `{0, 0, 40}`. -/
def SOIL_DRY : FuzzyTriangle := { a := 0, b := 0, c := 40 }
/-- Soil moisture "ok", `{30, 50, 70}`. -/
def SOIL_OK : FuzzyTriangle := { a := 30, b := 50, c := 70 }
/-- Soil moisture "wet", `{60, 100, 100}`. -/
def SOIL_WET : FuzzyTriangle := { a := 60, b := 100, c := 100 }
/-- Time of day "daytime", `{6, 11, 19, 21}`. -/
def TIME_DAY : FuzzyTrapezoid := { a := 6, b := 11, c := 19, d := 21 }
/-- Temperature "cold", `{0, 0, 16, 20}`. -/
def TEMP_COLD : FuzzyTrapezoid := { a := 0, b := 0, c := 16, d := 20 }
/-- Temperature "average", `{18, 21, 23}`. -/
def TEMP_AVG : FuzzyTriangle := { a := 18, b := 21, c := 23 }
/-- Temperature "hot", `{21, 26, 55, 55}`. -/
def TEMP_HOT : FuzzyTrapezoid := { a := 21, b := 26, c := 55, d := 55 }
/-- Air humidity "low", `{0, 0, 40}`. -/
def HUM_LOW : FuzzyTriangle := { a := 0, b := 0, c := 40 }
/-- Air humidity "medium", `{30, 55, 80}`. -/
def HUM_MEDIUM : FuzzyTriangle := { a := 30, b := 55, c := 80 }
/-- Air humidity "high", `{70, 100, 100}`. -/
def HUM_HIGH : FuzzyTriangle := { a := 70, b := 100, c := 100 }

/-- Helper `is_daytime`. -/
def is_daytime (i : SystemInputs) : ℚ :=
  TIME_DAY.getMembership i.time_of_day

/-- Rule R1: soil wet, stop. -/
def r1 : TSKRule :=
  (TSKRule.mk0 fun _ => 0)
    |>.addCondition (fun i => SOIL_WET.getMembership i.soil_moisture)

/-- Rule R2: soil dry, hot, daytime; first-order consequent. -/
def r2 : TSKRule :=
  (TSKRule.mk0 fun i => 5 + (i.temperature - 20) * (2 / 10) + (50 - i.humidity) * (5 / 100))
    |>.addCondition (fun i => SOIL_DRY.getMembership i.soil_moisture)
    |>.addCondition (fun i => TEMP_HOT.getMembership i.temperature)
    |>.addCondition is_daytime

/-- Rule R3: soil dry, average temperature, daytime. -/
def r3 : TSKRule :=
  (TSKRule.mk0 fun _ => 4)
    |>.addCondition (fun i => SOIL_DRY.getMembership i.soil_moisture)
    |>.addCondition (fun i => TEMP_AVG.getMembership i.temperature)
    |>.addCondition is_daytime

/-- Rule R4: soil dry, cold, daytime. -/
def r4 : TSKRule :=
  (TSKRule.mk0 fun _ => 2)
    |>.addCondition (fun i => SOIL_DRY.getMembership i.soil_moisture)
    |>.addCondition (fun i => TEMP_COLD.getMembership i.temperature)
    |>.addCondition is_daytime

/-- Rule R5: soil ok, dry air, daytime. -/
def r5 : TSKRule :=
  (TSKRule.mk0 fun _ => 15 / 10)
    |>.addCondition (fun i => SOIL_OK.getMembership i.soil_moisture)
    |>.addCondition (fun i => HUM_LOW.getMembership i.humidity)
    |>.addCondition is_daytime

/-- Rule R6: soil ok, humid air, daytime. -/
def r6 : TSKRule :=
  (TSKRule.mk0 fun _ => 0)
    |>.addCondition (fun i => SOIL_OK.getMembership i.soil_moisture)
    |>.addCondition (fun i => HUM_HIGH.getMembership i.humidity)
    |>.addCondition is_daytime

/-- Function `setupIrrigationRules`: appends R1 to R6, in this order. -/
def setupIrrigationRules (ctrl : TSKController) : TSKController :=
  ctrl |>.addRule r1 |>.addRule r2 |>.addRule r3 |>.addRule r4 |>.addRule r5 |>.addRule r6

/-! ## Division-checked variants of the membership functions -/

/-- Division that reports a zero divisor: `none` when the divisor is 0, the quotient
otherwise. -/
def checkedDiv (n d : ℚ) : Option ℚ :=
  if d = 0 then none else some (n / d)

/-- Body of `FuzzyTriangle::getMembership`, branch by branch, with each of its two
divisions checked: `none` means that a division by zero was reached. -/
def FuzzyTriangle.getMembershipChecked (t : FuzzyTriangle) (x : ℚ) : Option ℚ :=
  if t.a = t.b ∧ t.b = t.c then
    some (if x = t.a then 1 else 0)
  else if t.a = t.b ∧ x ≤ t.b then
    some 1
  else if t.b = t.c ∧ x ≥ t.b then
    some 1
  else if x < t.a ∨ x > t.c then
    some 0
  else if x ≤ t.b then
    checkedDiv (x - t.a) (t.b - t.a)
  else
    checkedDiv (t.c - x) (t.c - t.b)

/-- Body of `FuzzyTrapezoid::getMembership`, branch by branch, with each of its two
divisions checked: `none` means that a division by zero was reached. -/
def FuzzyTrapezoid.getMembershipChecked (z : FuzzyTrapezoid) (x : ℚ) : Option ℚ :=
  if x < z.a ∨ x > z.d then
    some 0
  else if x ≥ z.b ∧ x ≤ z.c then
    some 1
  else if x < z.b then
    (if z.b = z.a then some 1 else checkedDiv (x - z.a) (z.b - z.a))
  else if x > z.c then
    (if z.d = z.c then some 1 else checkedDiv (z.d - x) (z.d - z.c))
  else
    some 0

/-! ## Binary floating point emulation of `TSKEngine.h` and `IrrigationRules.h`

The same source once more, now with the arithmetic of the C++ types: every `float`
operation rounds to binary32 and every `double` operation to binary64 (round to nearest,
ties to even, with subnormals, overflow to an infinity, and NaN).  Each operation is
rounded once, in the type of its operands: no fused multiply-add and no wider
intermediate precision.  The two signed zeros are not distinguished. -/

/-- A binary32 or binary64 datum: NaN, an infinity, or a finite number given by its exact
value. -/
inductive FloatVal where
  | nan : FloatVal
  | negInf : FloatVal
  | posInf : FloatVal
  | fin (q : ℚ) : FloatVal
  deriving DecidableEq

/-- The power of two `2 ^ e` for an integer exponent. -/
def pow2 (e : ℤ) : ℚ :=
  if 0 ≤ e then ((2 ^ e.toNat : ℕ) : ℚ) else 1 / ((2 ^ (-e).toNat : ℕ) : ℚ)

/-- Number of binary digits of `n`, by halving (the first argument bounds the number of
steps). -/
def bitLength : ℕ → ℕ → ℕ
  | 0, _ => 0
  | fuel + 1, n => if n = 0 then 0 else bitLength fuel (n / 2) + 1

/-- Floor of the binary logarithm of a positive natural number. -/
def natLog2 (n : ℕ) : ℤ :=
  (bitLength n n : ℤ) - 1

/-- Floor of the binary logarithm of a positive rational number. -/
def floorLog2 (q : ℚ) : ℤ :=
  if pow2 (natLog2 q.num.natAbs - natLog2 q.den) ≤ q then
    natLog2 q.num.natAbs - natLog2 q.den
  else
    natLog2 q.num.natAbs - natLog2 q.den - 1

/-- Rounding to the nearest integer, ties to the even one. -/
def roundHalfEven (m : ℚ) : ℤ :=
  if m - ⌊m⌋ < 1 / 2 then ⌊m⌋
  else if 1 / 2 < m - ⌊m⌋ then ⌊m⌋ + 1
  else if ⌊m⌋ % 2 = 0 then ⌊m⌋
  else ⌊m⌋ + 1

/-- Rounding of an exact value to a binary format with `p` significand bits and normal
exponents from `emin` to `emax`: nearest representable number, ties to even; below
`2 ^ emin` the spacing of the subnormals; an infinity when the rounded magnitude reaches
`2 ^ (emax + 1)`. -/
def roundFloat (p : ℕ) (emin emax : ℤ) (q : ℚ) : FloatVal :=
  if q = 0 then FloatVal.fin 0
  else if pow2 (emax + 1) ≤
      |(roundHalfEven (q / pow2 (max (floorLog2 |q|) emin - ((p : ℤ) - 1))) : ℚ)
        * pow2 (max (floorLog2 |q|) emin - ((p : ℤ) - 1))| then
    (if 0 < q then FloatVal.posInf else FloatVal.negInf)
  else
    FloatVal.fin ((roundHalfEven (q / pow2 (max (floorLog2 |q|) emin - ((p : ℤ) - 1))) : ℚ)
      * pow2 (max (floorLog2 |q|) emin - ((p : ℤ) - 1)))

/-- Rounding to binary32, the C++ `float`. -/
def toF32 (q : ℚ) : FloatVal :=
  roundFloat 24 (-126) 127 q

/-- Rounding to binary64, the C++ `double`. -/
def toF64 (q : ℚ) : FloatVal :=
  roundFloat 53 (-1022) 1023 q

/-- Negation. -/
def FloatVal.neg : FloatVal → FloatVal
  | FloatVal.nan => FloatVal.nan
  | FloatVal.negInf => FloatVal.posInf
  | FloatVal.posInf => FloatVal.negInf
  | FloatVal.fin q => FloatVal.fin (-q)

/-- Sum, rounded by `rnd`; opposite infinities give NaN. -/
def FloatVal.add (rnd : ℚ → FloatVal) : FloatVal → FloatVal → FloatVal
  | FloatVal.nan, _ => FloatVal.nan
  | _, FloatVal.nan => FloatVal.nan
  | FloatVal.posInf, FloatVal.negInf => FloatVal.nan
  | FloatVal.negInf, FloatVal.posInf => FloatVal.nan
  | FloatVal.posInf, _ => FloatVal.posInf
  | _, FloatVal.posInf => FloatVal.posInf
  | FloatVal.negInf, _ => FloatVal.negInf
  | _, FloatVal.negInf => FloatVal.negInf
  | FloatVal.fin a, FloatVal.fin b => rnd (a + b)

/-- Difference, rounded by `rnd`. -/
def FloatVal.sub (rnd : ℚ → FloatVal) (x y : FloatVal) : FloatVal :=
  FloatVal.add rnd x y.neg

/-- An infinity of the sign of `s`, NaN when `s` is zero. -/
def FloatVal.infOfSign (s : ℚ) : FloatVal :=
  if 0 < s then FloatVal.posInf else if s < 0 then FloatVal.negInf else FloatVal.nan

/-- Sign of a datum that is not NaN: 1, 0 or -1. -/
def FloatVal.sign : FloatVal → ℚ
  | FloatVal.nan => 0
  | FloatVal.negInf => -1
  | FloatVal.posInf => 1
  | FloatVal.fin q => if 0 < q then 1 else if q < 0 then -1 else 0

/-- Product, rounded by `rnd`; zero times an infinity gives NaN. -/
def FloatVal.mul (rnd : ℚ → FloatVal) : FloatVal → FloatVal → FloatVal
  | FloatVal.nan, _ => FloatVal.nan
  | _, FloatVal.nan => FloatVal.nan
  | FloatVal.fin a, FloatVal.fin b => rnd (a * b)
  | x, y => FloatVal.infOfSign (x.sign * y.sign)

/-- Quotient, rounded by `rnd`; zero by zero and infinity by infinity give NaN, a
non-zero number by zero gives an infinity. -/
def FloatVal.div (rnd : ℚ → FloatVal) : FloatVal → FloatVal → FloatVal
  | FloatVal.nan, _ => FloatVal.nan
  | _, FloatVal.nan => FloatVal.nan
  | FloatVal.fin a, FloatVal.fin b => if b = 0 then FloatVal.infOfSign a else rnd (a / b)
  | FloatVal.fin _, _ => FloatVal.fin 0
  | x, FloatVal.fin b => if b < 0 then x.neg else x
  | _, _ => FloatVal.nan

/-- Comparison `x < y`; false as soon as one side is NaN. -/
def FloatVal.lt : FloatVal → FloatVal → Bool
  | FloatVal.nan, _ => false
  | _, FloatVal.nan => false
  | FloatVal.fin a, FloatVal.fin b => decide (a < b)
  | FloatVal.negInf, FloatVal.negInf => false
  | FloatVal.negInf, _ => true
  | _, FloatVal.negInf => false
  | FloatVal.posInf, _ => false
  | _, FloatVal.posInf => true

/-- Comparison `x == y`; false as soon as one side is NaN. -/
def FloatVal.eq : FloatVal → FloatVal → Bool
  | FloatVal.nan, _ => false
  | _, FloatVal.nan => false
  | x, y => decide (x = y)

/-- Comparison `x <= y`. -/
def FloatVal.le (x y : FloatVal) : Bool :=
  x.lt y || x.eq y

/-- Conversion of a `double` to `float`, `static_cast<float>`. -/
def FloatVal.castF32 : FloatVal → FloatVal
  | FloatVal.fin q => toF32 q
  | x => x

namespace Binary

/-- The `float` datum of a number written in the source. -/
def lit (q : ℚ) : FloatVal := toF32 q

/-- Float subtraction. -/
def sub32 (x y : FloatVal) : FloatVal := FloatVal.sub toF32 x y
/-- Float addition. -/
def add32 (x y : FloatVal) : FloatVal := FloatVal.add toF32 x y
/-- Float multiplication. -/
def mul32 (x y : FloatVal) : FloatVal := FloatVal.mul toF32 x y
/-- Float division. -/
def div32 (x y : FloatVal) : FloatVal := FloatVal.div toF32 x y
/-- Double addition. -/
def add64 (x y : FloatVal) : FloatVal := FloatVal.add toF64 x y
/-- Double division. -/
def div64 (x y : FloatVal) : FloatVal := FloatVal.div toF64 x y

/-- System inputs, `struct SystemInputs`, four `float` fields. -/
structure SystemInputs where
  soil_moisture : FloatVal
  time_of_day : FloatVal
  temperature : FloatVal
  humidity : FloatVal

/-- Triangular fuzzy set, `struct FuzzyTriangle { float a, b, c; }`. -/
structure FuzzyTriangle where
  a : FloatVal
  b : FloatVal
  c : FloatVal

/-- Method `FuzzyTriangle::getMembership` on `float`. -/
def FuzzyTriangle.getMembership (t : FuzzyTriangle) (x : FloatVal) : FloatVal :=
  if t.a.eq t.b && t.b.eq t.c then
    (if x.eq t.a then lit 1 else lit 0)
  else if t.a.eq t.b && x.le t.b then
    lit 1
  else if t.b.eq t.c && t.b.le x then
    lit 1
  else if x.lt t.a || t.c.lt x then
    lit 0
  else if x.le t.b then
    div32 (sub32 x t.a) (sub32 t.b t.a)
  else
    div32 (sub32 t.c x) (sub32 t.c t.b)

/-- Trapezoidal fuzzy set, `struct FuzzyTrapezoid { float a, b, c, d; }`. -/
structure FuzzyTrapezoid where
  a : FloatVal
  b : FloatVal
  c : FloatVal
  d : FloatVal

/-- Method `FuzzyTrapezoid::getMembership` on `float`. -/
def FuzzyTrapezoid.getMembership (z : FuzzyTrapezoid) (x : FloatVal) : FloatVal :=
  if x.lt z.a || z.d.lt x then
    lit 0
  else if z.b.le x && x.le z.c then
    lit 1
  else if x.lt z.b then
    (if z.b.eq z.a then lit 1 else div32 (sub32 x z.a) (sub32 z.b z.a))
  else if z.c.lt x then
    (if z.d.eq z.c then lit 1 else div32 (sub32 z.d x) (sub32 z.d z.c))
  else
    lit 0

/-- Antecedent evaluator on `float`. -/
abbrev AntecedentFunc := SystemInputs → FloatVal

/-- Consequent evaluator on `float`. -/
abbrev ConsequentFunc := SystemInputs → FloatVal

/-- Rule of the engine, `class TSKRule`. -/
structure TSKRule where
  antecedents : List AntecedentFunc
  consequent : ConsequentFunc

/-- Constructor `TSKRule(ConsequentFunc output_func)`. -/
def TSKRule.mk0 (output_func : ConsequentFunc) : TSKRule :=
  { antecedents := [], consequent := output_func }

/-- Method `addCondition`. -/
def TSKRule.addCondition (r : TSKRule) (condition : AntecedentFunc) : TSKRule :=
  { r with antecedents := r.antecedents ++ [condition] }

/-- The `for` loop of `TSKRule::evaluate`: `weight *= func(inputs)` in `float`, with the
`break` on `weight == 0.0f`. -/
def TSKRule.weightLoop (inputs : SystemInputs) : List AntecedentFunc → FloatVal → FloatVal
  | [], weight => weight
  | func :: rest, weight =>
    if (mul32 weight (func inputs)).eq (lit 0) then
      mul32 weight (func inputs)
    else
      TSKRule.weightLoop inputs rest (mul32 weight (func inputs))

/-- Method `TSKRule::evaluate` on `float`. -/
def TSKRule.evaluate (r : TSKRule) (inputs : SystemInputs) : FloatVal × FloatVal :=
  if r.antecedents.isEmpty then
    (lit 0, lit 0)
  else
    let weight := TSKRule.weightLoop inputs r.antecedents (lit 1)
    let output_y := if (lit 0).lt weight then r.consequent inputs else lit 0
    (weight, output_y)

/-- Controller, `class TSKController`. -/
structure TSKController where
  rules : List TSKRule

/-- A default-constructed controller holds no rule. -/
def TSKController.empty : TSKController :=
  { rules := [] }

/-- Method `addRule`. -/
def TSKController.addRule (ctrl : TSKController) (rule : TSKRule) : TSKController :=
  { rules := ctrl.rules ++ [rule] }

/-- One iteration of the loop of `TSKController::compute`: the product `weight * y` is a
`float` product, the two sums are `double` sums. -/
def TSKController.accumulate (inputs : SystemInputs) (acc : FloatVal × FloatVal)
    (rule : TSKRule) : FloatVal × FloatVal :=
  let result := rule.evaluate inputs
  let weight := result.1
  let y := result.2
  if (lit 0).lt weight then
    (add64 acc.1 (mul32 weight y), add64 acc.2 weight)
  else
    acc

/-- The accumulators `(numerator, denominator)` after the loop of `compute`. -/
def TSKController.accumulators (ctrl : TSKController) (inputs : SystemInputs) :
    FloatVal × FloatVal :=
  ctrl.rules.foldl (TSKController.accumulate inputs) (toF64 0, toF64 0)

/-- The three last statements of `compute`: the clamp of the `float` result. -/
def clampResult (result : FloatVal) : FloatVal :=
  if result.lt (lit 0) then lit 0
  else if (lit 10).lt result then lit 10
  else result

/-- Method `TSKController::compute` on `float` and `double`. -/
def TSKController.compute (ctrl : TSKController) (inputs : SystemInputs) : FloatVal :=
  let acc := ctrl.accumulators inputs
  let numerator := acc.1
  let denominator := acc.2
  if denominator.lt (toF64 (1 / 1000000)) then
    lit 0
  else
    clampResult (FloatVal.castF32 (div64 numerator denominator))

/-- Soil moisture "dry", `{0, 0, 40}`. -/
def SOIL_DRY : FuzzyTriangle := { a := lit 0, b := lit 0, c := lit 40 }
/-- Soil moisture "ok", `{30, 50, 70}`. -/
def SOIL_OK : FuzzyTriangle := { a := lit 30, b := lit 50, c := lit 70 }
/-- Soil moisture "wet", `{60, 100, 100}`. -/
def SOIL_WET : FuzzyTriangle := { a := lit 60, b := lit 100, c := lit 100 }
/-- Time of day "daytime", `{6, 11, 19, 21}`. -/
def TIME_DAY : FuzzyTrapezoid := { a := lit 6, b := lit 11, c := lit 19, d := lit 21 }
/-- Temperature "cold", `{0, 0, 16, 20}`. -/
def TEMP_COLD : FuzzyTrapezoid := { a := lit 0, b := lit 0, c := lit 16, d := lit 20 }
/-- Temperature "average", `{18, 21, 23}`. -/
def TEMP_AVG : FuzzyTriangle := { a := lit 18, b := lit 21, c := lit 23 }
/-- Temperature "hot", `{21, 26, 55, 55}`. -/
def TEMP_HOT : FuzzyTrapezoid := { a := lit 21, b := lit 26, c := lit 55, d := lit 55 }
/-- Air humidity "low", `{0, 0, 40}`. -/
def HUM_LOW : FuzzyTriangle := { a := lit 0, b := lit 0, c := lit 40 }
/-- Air humidity "high", `{70, 100, 100}`. -/
def HUM_HIGH : FuzzyTriangle := { a := lit 70, b := lit 100, c := lit 100 }

/-- Helper `is_daytime`. -/
def is_daytime (i : SystemInputs) : FloatVal :=
  TIME_DAY.getMembership i.time_of_day

/-- Rule R1. -/
def r1 : TSKRule :=
  (TSKRule.mk0 fun _ => lit 0)
    |>.addCondition (fun i => SOIL_WET.getMembership i.soil_moisture)

/-- Rule R2, with the consequent
`5.0f + (in.temperature - 20.0f) * 0.2f + (50.0f - in.humidity) * 0.05f`. -/
def r2 : TSKRule :=
  (TSKRule.mk0 fun i =>
      add32 (add32 (lit 5) (mul32 (sub32 i.temperature (lit 20)) (lit (2 / 10))))
        (mul32 (sub32 (lit 50) i.humidity) (lit (5 / 100))))
    |>.addCondition (fun i => SOIL_DRY.getMembership i.soil_moisture)
    |>.addCondition (fun i => TEMP_HOT.getMembership i.temperature)
    |>.addCondition is_daytime

/-- Rule R3. -/
def r3 : TSKRule :=
  (TSKRule.mk0 fun _ => lit 4)
    |>.addCondition (fun i => SOIL_DRY.getMembership i.soil_moisture)
    |>.addCondition (fun i => TEMP_AVG.getMembership i.temperature)
    |>.addCondition is_daytime

/-- Rule R4. -/
def r4 : TSKRule :=
  (TSKRule.mk0 fun _ => lit 2)
    |>.addCondition (fun i => SOIL_DRY.getMembership i.soil_moisture)
    |>.addCondition (fun i => TEMP_COLD.getMembership i.temperature)
    |>.addCondition is_daytime

/-- Rule R5. -/
def r5 : TSKRule :=
  (TSKRule.mk0 fun _ => lit (15 / 10))
    |>.addCondition (fun i => SOIL_OK.getMembership i.soil_moisture)
    |>.addCondition (fun i => HUM_LOW.getMembership i.humidity)
    |>.addCondition is_daytime

/-- Rule R6. -/
def r6 : TSKRule :=
  (TSKRule.mk0 fun _ => lit 0)
    |>.addCondition (fun i => SOIL_OK.getMembership i.soil_moisture)
    |>.addCondition (fun i => HUM_HIGH.getMembership i.humidity)
    |>.addCondition is_daytime

/-- Function `setupIrrigationRules`. -/
def setupIrrigationRules (ctrl : TSKController) : TSKController :=
  ctrl |>.addRule r1 |>.addRule r2 |>.addRule r3 |>.addRule r4 |>.addRule r5 |>.addRule r6

/-- The input record of four numbers, each converted to `float`. -/
def inputs (soil time temp hum : ℚ) : SystemInputs :=
  { soil_moisture := lit soil, time_of_day := lit time, temperature := lit temp,
    humidity := lit hum }

/-- A controller with a single rule: one antecedent of constant degree `w` and a constant
output `y`. -/
def singleRule (w y : FloatVal) : TSKController :=
  TSKController.empty |>.addRule ((TSKRule.mk0 fun _ => y) |>.addCondition (fun _ => w))

/-- A controller with two rules of constant degrees `w₁`, `w₂` and constant outputs
`y₁`, `y₂`. -/
def twoRules (w₁ y₁ w₂ y₂ : FloatVal) : TSKController :=
  TSKController.empty
    |>.addRule ((TSKRule.mk0 fun _ => y₁) |>.addCondition (fun _ => w₁))
    |>.addRule ((TSKRule.mk0 fun _ => y₂) |>.addCondition (fun _ => w₂))

end Binary

namespace Binary

/-- Whether a datum is a number of the output range `[0, 10]`. -/
def inOutputRange : FloatVal → Bool
  | FloatVal.fin q => decide (0 ≤ q ∧ q ≤ 10)
  | _ => false

end Binary

/-! ## Specification-side definitions -/

/-- Clamp of the specification: a value brought into the output range `[0, 10]`. -/
def clampOutput (x : ℚ) : ℚ :=
  max 0 (min x 10)

/-- Weight that `TSKRule.evaluate` returns for a rule. -/
def ruleWeight (inputs : SystemInputs) (r : TSKRule) : ℚ :=
  (r.evaluate inputs).1

/-- Output that `TSKRule.evaluate` returns for a rule. -/
def ruleOutput (inputs : SystemInputs) (r : TSKRule) : ℚ :=
  (r.evaluate inputs).2

/-- Sum of the rule weights over all rules (the denominator of the specification). -/
def weightSum (rules : List TSKRule) (inputs : SystemInputs) : ℚ :=
  (rules.map fun r => ruleWeight inputs r).sum

/-- Sum of weight times output over all rules (the numerator of the specification). -/
def weightedOutputSum (rules : List TSKRule) (inputs : SystemInputs) : ℚ :=
  (rules.map fun r => ruleWeight inputs r * ruleOutput inputs r).sum

/-- Sum of the weights of the rules whose weight is positive. -/
def firingWeightSum (rules : List TSKRule) (inputs : SystemInputs) : ℚ :=
  ((rules.filter fun r => decide (0 < ruleWeight inputs r)).map fun r => ruleWeight inputs r).sum

/-- Sum of weight times output over the rules whose weight is positive. -/
def firingOutputSum (rules : List TSKRule) (inputs : SystemInputs) : ℚ :=
  ((rules.filter fun r => decide (0 < ruleWeight inputs r)).map
    fun r => ruleWeight inputs r * ruleOutput inputs r).sum

/-- Product of all antecedent degrees of a rule, in declared order. -/
def antecedentProduct (r : TSKRule) (inputs : SystemInputs) : ℚ :=
  (r.antecedents.map fun f => f inputs).prod

/-- Reference membership of a trapezoid, after the piecewise definition of the
specification: 0 outside `[a, d]`, 1 on `[b, c]`, the rising ramp on `[a, b)` and the
falling ramp on `(c, d]`. -/
def trapezoidReference (z : FuzzyTrapezoid) (x : ℚ) : ℚ :=
  if x < z.a ∨ x > z.d then 0
  else if z.b ≤ x ∧ x ≤ z.c then 1
  else if z.a ≤ x ∧ x < z.b then (x - z.a) / (z.b - z.a)
  else if z.c < x ∧ x ≤ z.d then (z.d - x) / (z.d - z.c)
  else 0

/-! ## Concrete controllers and inputs used in the examples -/

/-- The irrigation controller: the six rules installed on a fresh controller. -/
def irrigationController : TSKController :=
  setupIrrigationRules TSKController.empty

/-- A hot dry afternoon: soil 10, time 14, temperature 30, humidity 20. -/
def hotDryAfternoon : SystemInputs :=
  { soil_moisture := 10, time_of_day := 14, temperature := 30, humidity := 20 }

/-- Midnight with dry soil: soil 10, time 0, temperature 30, humidity 20. -/
def dryMidnight : SystemInputs :=
  { soil_moisture := 10, time_of_day := 0, temperature := 30, humidity := 20 }

/-- A wet afternoon: soil 80, time 14, temperature 25, humidity 50. -/
def wetAfternoon : SystemInputs :=
  { soil_moisture := 80, time_of_day := 14, temperature := 25, humidity := 50 }

/-! ## Helper lemmas -/

/-- The loop with its early exit computes the running weight times the full product. -/
theorem weightLoop_eq_mul_prod (inputs : SystemInputs) (fs : List AntecedentFunc) (w : ℚ) :
    TSKRule.weightLoop inputs fs w = w * (fs.map fun f => f inputs).prod := by
  induction fs generalizing w with
  | nil => simp [TSKRule.weightLoop]
  | cons f rest ih =>
    simp only [TSKRule.weightLoop, List.map_cons, List.prod_cons]
    split_ifs with h0
    · rw [← mul_assoc, h0, zero_mul]
    · rw [ih, mul_assoc]

/-- A product of factors in `[0, 1]` is non-negative. -/
theorem prod_nonneg_of_unit (l : List ℚ) (h : ∀ q ∈ l, 0 ≤ q ∧ q ≤ 1) : 0 ≤ l.prod := by
  induction l with
  | nil => simp
  | cons q rest ih =>
    rw [List.prod_cons]
    exact mul_nonneg (h q (List.mem_cons_self q rest)).1
      (ih fun p hp => h p (List.mem_cons_of_mem q hp))

/-- The weight of a rule with at least one antecedent is the antecedent product. -/
theorem ruleWeight_eq_product (r : TSKRule) (inputs : SystemInputs) (hne : r.antecedents ≠ []) :
    ruleWeight inputs r = antecedentProduct r inputs := by
  have hemp : r.antecedents.isEmpty = false := by
    cases hr : r.antecedents with
    | nil => exact absurd hr hne
    | cons f rest => rfl
  simp [ruleWeight, TSKRule.evaluate, hemp, weightLoop_eq_mul_prod, antecedentProduct]

/-- With all antecedent degrees in `[0, 1]` the weight of a rule is non-negative. -/
theorem ruleWeight_nonneg (r : TSKRule) (inputs : SystemInputs)
    (h : ∀ f ∈ r.antecedents, 0 ≤ f inputs ∧ f inputs ≤ 1) : 0 ≤ ruleWeight inputs r := by
  by_cases hne : r.antecedents = []
  · simp [ruleWeight, TSKRule.evaluate, hne]
  · rw [ruleWeight_eq_product r inputs hne, antecedentProduct]
    apply prod_nonneg_of_unit
    intro q hq
    obtain ⟨f, hf, rfl⟩ := List.mem_map.mp hq
    exact h f hf

/-- The accumulation loop of `compute` adds the firing sums to its accumulator. -/
theorem foldl_accumulate (inputs : SystemInputs) (rules : List TSKRule) (acc : ℚ × ℚ) :
    rules.foldl (TSKController.accumulate inputs) acc
      = (acc.1 + firingOutputSum rules inputs, acc.2 + firingWeightSum rules inputs) := by
  induction rules generalizing acc with
  | nil => simp [firingOutputSum, firingWeightSum]
  | cons r rest ih =>
    rw [List.foldl_cons, ih]
    by_cases hw : 0 < ruleWeight inputs r
    · have hw' : 0 < (r.evaluate inputs).1 := hw
      simp [TSKController.accumulate, firingOutputSum, firingWeightSum, List.filter_cons, hw,
        hw', ruleWeight, ruleOutput, add_assoc]
    · have hw' : ¬ 0 < (r.evaluate inputs).1 := hw
      simp [TSKController.accumulate, firingOutputSum, firingWeightSum, List.filter_cons, hw,
        hw']

/-- The value of `compute` in terms of the firing sums. -/
theorem compute_eq_firing (ctrl : TSKController) (inputs : SystemInputs) :
    ctrl.compute inputs =
      if firingWeightSum ctrl.rules inputs < 1 / 1000000 then 0
      else clampOutput (firingOutputSum ctrl.rules inputs / firingWeightSum ctrl.rules inputs) := by
  simp only [TSKController.compute, foldl_accumulate, zero_add, clampOutput]
  split_ifs with h1 h2 h3
  · rfl
  · rw [max_eq_left]
    exact le_trans (min_le_left _ _) h2.le
  · rw [min_eq_right h3.le, max_eq_right (by norm_num)]
  · rw [min_eq_left (not_lt.mp h3), max_eq_right (not_lt.mp h2)]

/-- A rule of weight zero has output zero. -/
theorem ruleOutput_of_weight_zero (r : TSKRule) (inputs : SystemInputs)
    (h : ruleWeight inputs r = 0) : ruleOutput inputs r = 0 := by
  unfold ruleWeight at h
  unfold ruleOutput
  by_cases he : r.antecedents.isEmpty = true
  · simp [TSKRule.evaluate, he]
  · simp only [TSKRule.evaluate, he] at h ⊢
    simp only [Bool.false_eq_true, if_false] at h ⊢
    rw [h]
    simp

/-- With non-negative weights, the firing sums are the sums over all rules. -/
theorem firing_eq_all (rules : List TSKRule) (inputs : SystemInputs)
    (h : ∀ r ∈ rules, 0 ≤ ruleWeight inputs r) :
    firingWeightSum rules inputs = weightSum rules inputs ∧
      firingOutputSum rules inputs = weightedOutputSum rules inputs := by
  induction rules with
  | nil => simp [firingWeightSum, weightSum, firingOutputSum, weightedOutputSum]
  | cons r rest ih =>
    have ih' := ih fun q hq => h q (List.mem_cons_of_mem r hq)
    unfold firingWeightSum weightSum firingOutputSum weightedOutputSum at ih' ⊢
    by_cases hw : 0 < ruleWeight inputs r
    · simp [List.filter_cons, hw, ih'.1, ih'.2]
    · have h0 : ruleWeight inputs r = 0 :=
        le_antisymm (not_lt.mp hw) (h r (List.mem_cons_self r rest))
      simp [List.filter_cons, hw, ih'.1, ih'.2, h0]

/-- A rising ramp between two distinct abscissas stays in `[0, 1]`. -/
theorem rising_ramp_bounds (lo hi x : ℚ) (h : lo < hi) (h1 : lo ≤ x) (h2 : x ≤ hi) :
    0 ≤ (x - lo) / (hi - lo) ∧ (x - lo) / (hi - lo) ≤ 1 := by
  have hpos : 0 < hi - lo := sub_pos.mpr h
  constructor
  · exact div_nonneg (sub_nonneg.mpr h1) hpos.le
  · rw [div_le_one hpos]
    linarith

/-- A falling ramp between two distinct abscissas stays in `[0, 1]`. -/
theorem falling_ramp_bounds (lo hi x : ℚ) (h : lo < hi) (h1 : lo ≤ x) (h2 : x ≤ hi) :
    0 ≤ (hi - x) / (hi - lo) ∧ (hi - x) / (hi - lo) ≤ 1 := by
  have hpos : 0 < hi - lo := sub_pos.mpr h
  constructor
  · exact div_nonneg (sub_nonneg.mpr h2) hpos.le
  · rw [div_le_one hpos]
    linarith

/-- The triangular membership is a degree in `[0, 1]` as soon as `a ≤ b`. -/
theorem triangle_bounds (t : FuzzyTriangle) (x : ℚ) (hab : t.a ≤ t.b) :
    0 ≤ t.getMembership x ∧ t.getMembership x ≤ 1 := by
  unfold FuzzyTriangle.getMembership
  split_ifs with h1 h2 h3 h4 h5 h6
  · norm_num
  · norm_num
  · norm_num
  · norm_num
  · norm_num
  · push_neg at h5
    have hlt : t.a < t.b := by
      rcases lt_or_eq_of_le hab with h | h
      · exact h
      · exact absurd ⟨h, h6⟩ h3
    exact rising_ramp_bounds t.a t.b x hlt h5.1 h6
  · push_neg at h5 h6
    exact falling_ramp_bounds t.b t.c x (lt_of_lt_of_le h6 h5.2) h6.le h5.2

/-- The trapezoidal membership is a degree in `[0, 1]` as soon as `a ≤ b` and `c ≤ d`. -/
theorem trapezoid_bounds (z : FuzzyTrapezoid) (x : ℚ) (hab : z.a ≤ z.b) (hcd : z.c ≤ z.d) :
    0 ≤ z.getMembership x ∧ z.getMembership x ≤ 1 := by
  unfold FuzzyTrapezoid.getMembership
  split_ifs with h1 h2 h3 h4 h5 h6
  · norm_num
  · norm_num
  · norm_num
  · push_neg at h1
    exact rising_ramp_bounds z.a z.b x (lt_of_le_of_ne hab (Ne.symm h4)) h1.1 h3.le
  · norm_num
  · push_neg at h1
    exact falling_ramp_bounds z.c z.d x (lt_of_le_of_ne hcd (Ne.symm h6)) h5.le h1.2
  · norm_num

/-- Left of its support a triangle yields 0, except a left shoulder, which yields 1. -/
theorem triangle_left_of_support (t : FuzzyTriangle) (x : ℚ)
    (hab : t.a ≤ t.b) (hbc : t.b ≤ t.c) (hx : x < t.a) :
    t.getMembership x = if t.a = t.b ∧ t.b < t.c then 1 else 0 := by
  obtain ⟨a, b, c⟩ := t
  simp only [FuzzyTriangle.getMembership] at *
  rcases eq_or_lt_of_le hab with h1 | h1 <;> rcases eq_or_lt_of_le hbc with h2 | h2
  · subst h1 h2
    simp [hx.ne]
  · subst h1
    simp [h2, h2.ne, hx.le]
  · subst h2
    have hxb : ¬ b ≤ x := by linarith
    simp [h1.ne, hxb, hx]
  · have hxb : ¬ b ≤ x := by linarith
    simp [h1.ne, h2.ne, hxb, hx]

/-- Right of its support a triangle yields 0, except a right shoulder, which yields 1. -/
theorem triangle_right_of_support (t : FuzzyTriangle) (x : ℚ)
    (hab : t.a ≤ t.b) (hbc : t.b ≤ t.c) (hx : x > t.c) :
    t.getMembership x = if t.a < t.b ∧ t.b = t.c then 1 else 0 := by
  obtain ⟨a, b, c⟩ := t
  simp only [FuzzyTriangle.getMembership] at *
  rcases eq_or_lt_of_le hab with h1 | h1 <;> rcases eq_or_lt_of_le hbc with h2 | h2
  · subst h1 h2
    simp [hx.ne.symm]
  · subst h1
    have hxb : ¬ x ≤ a := by linarith
    simp [h2.ne, hxb, hx]
  · subst h2
    simp [h1, h1.ne, hx.le]
  · have hxb : ¬ x ≤ b := by linarith
    simp [h1.ne, h2.ne, hxb, hx]

/-- On its plateau `[b, c]` a trapezoid with ordered parameters yields 1. -/
theorem trapezoid_plateau (z : FuzzyTrapezoid) (x : ℚ)
    (hab : z.a ≤ z.b) (hcd : z.c ≤ z.d) (h1 : z.b ≤ x) (h2 : x ≤ z.c) :
    z.getMembership x = 1 := by
  have ha : ¬ (x < z.a ∨ x > z.d) := by
    push_neg
    exact ⟨le_trans hab h1, le_trans h2 hcd⟩
  simp [FuzzyTrapezoid.getMembership, ha, h1, h2]

/-- Outside `[a, d]` a trapezoid yields 0. -/
theorem trapezoid_outside (z : FuzzyTrapezoid) (x : ℚ) (hx : x < z.a ∨ x > z.d) :
    z.getMembership x = 0 := by
  simp [FuzzyTrapezoid.getMembership, hx]

/-- A checked division by a non-zero divisor returns the quotient. -/
theorem checkedDiv_of_ne (n d : ℚ) (h : d ≠ 0) : checkedDiv n d = some (n / d) := by
  simp [checkedDiv, h]

/-- The output returned by `evaluate`: the consequent value for a positive weight, 0
otherwise. -/
theorem ruleOutput_eq (r : TSKRule) (inputs : SystemInputs) :
    ruleOutput inputs r = if 0 < ruleWeight inputs r then r.consequent inputs else 0 := by
  unfold ruleOutput ruleWeight TSKRule.evaluate
  by_cases he : r.antecedents.isEmpty = true
  · simp [he]
  · simp [he]

/-- When every rule of positive weight has output 0, `compute` returns 0. -/
theorem compute_zero_of_outputs_zero (ctrl : TSKController) (inputs : SystemInputs)
    (h : ∀ r ∈ ctrl.rules, 0 < ruleWeight inputs r → ruleOutput inputs r = 0) :
    ctrl.compute inputs = 0 := by
  have hn : firingOutputSum ctrl.rules inputs = 0 := by
    unfold firingOutputSum
    apply List.sum_eq_zero
    intro q hq
    obtain ⟨r, hr, rfl⟩ := List.mem_map.mp hq
    rw [List.mem_filter] at hr
    rw [h r hr.1 (of_decide_eq_true hr.2), mul_zero]
  rw [compute_eq_firing, hn]
  split_ifs
  · rfl
  · simp [clampOutput]

/-- When a single rule of the list has positive weight, and that weight is at least
`1e-6`, `compute` returns the clamped output of that rule. -/
theorem compute_sole_firing (pre post : List TSKRule) (r₀ : TSKRule) (inputs : SystemInputs)
    (hsole : ∀ r ∈ pre ++ post, ruleWeight inputs r ≤ 0)
    (hw : ruleWeight inputs r₀ ≥ 1 / 1000000) :
    (TSKController.mk (pre ++ r₀ :: post)).compute inputs
      = clampOutput (ruleOutput inputs r₀) := by
  have hpos : 0 < ruleWeight inputs r₀ := lt_of_lt_of_le (by norm_num) hw
  have hpre : pre.filter (fun r => decide (0 < ruleWeight inputs r)) = [] := by
    rw [List.filter_eq_nil_iff]
    intro r hr
    simpa using hsole r (List.mem_append_left post hr)
  have hpost : post.filter (fun r => decide (0 < ruleWeight inputs r)) = [] := by
    rw [List.filter_eq_nil_iff]
    intro r hr
    simpa using hsole r (List.mem_append_right pre hr)
  have hW : firingWeightSum (pre ++ r₀ :: post) inputs = ruleWeight inputs r₀ := by
    simp [firingWeightSum, List.filter_append, List.filter_cons, hpre, hpost, hpos]
  have hN : firingOutputSum (pre ++ r₀ :: post) inputs
      = ruleWeight inputs r₀ * ruleOutput inputs r₀ := by
    simp [firingOutputSum, List.filter_append, List.filter_cons, hpre, hpost, hpos]
  rw [compute_eq_firing, hW, hN, if_neg (not_lt.mpr hw), mul_div_cancel_left₀ _ hpos.ne.symm]

/-- Weight of rule R1. -/
theorem ruleWeight_r1 (i : SystemInputs) :
    ruleWeight i r1 = SOIL_WET.getMembership i.soil_moisture := by
  rw [ruleWeight_eq_product r1 i (by simp [r1, TSKRule.addCondition, TSKRule.mk0])]
  simp [antecedentProduct, r1, TSKRule.addCondition, TSKRule.mk0]

/-- Weight of rule R2. -/
theorem ruleWeight_r2 (i : SystemInputs) :
    ruleWeight i r2 = SOIL_DRY.getMembership i.soil_moisture *
      (TEMP_HOT.getMembership i.temperature * TIME_DAY.getMembership i.time_of_day) := by
  rw [ruleWeight_eq_product r2 i (by simp [r2, TSKRule.addCondition, TSKRule.mk0])]
  simp [antecedentProduct, r2, TSKRule.addCondition, TSKRule.mk0, is_daytime]

/-- Weight of rule R3. -/
theorem ruleWeight_r3 (i : SystemInputs) :
    ruleWeight i r3 = SOIL_DRY.getMembership i.soil_moisture *
      (TEMP_AVG.getMembership i.temperature * TIME_DAY.getMembership i.time_of_day) := by
  rw [ruleWeight_eq_product r3 i (by simp [r3, TSKRule.addCondition, TSKRule.mk0])]
  simp [antecedentProduct, r3, TSKRule.addCondition, TSKRule.mk0, is_daytime]

/-- Weight of rule R4. -/
theorem ruleWeight_r4 (i : SystemInputs) :
    ruleWeight i r4 = SOIL_DRY.getMembership i.soil_moisture *
      (TEMP_COLD.getMembership i.temperature * TIME_DAY.getMembership i.time_of_day) := by
  rw [ruleWeight_eq_product r4 i (by simp [r4, TSKRule.addCondition, TSKRule.mk0])]
  simp [antecedentProduct, r4, TSKRule.addCondition, TSKRule.mk0, is_daytime]

/-- Weight of rule R5. -/
theorem ruleWeight_r5 (i : SystemInputs) :
    ruleWeight i r5 = SOIL_OK.getMembership i.soil_moisture *
      (HUM_LOW.getMembership i.humidity * TIME_DAY.getMembership i.time_of_day) := by
  rw [ruleWeight_eq_product r5 i (by simp [r5, TSKRule.addCondition, TSKRule.mk0])]
  simp [antecedentProduct, r5, TSKRule.addCondition, TSKRule.mk0, is_daytime]

/-- Weight of rule R6. -/
theorem ruleWeight_r6 (i : SystemInputs) :
    ruleWeight i r6 = SOIL_OK.getMembership i.soil_moisture *
      (HUM_HIGH.getMembership i.humidity * TIME_DAY.getMembership i.time_of_day) := by
  rw [ruleWeight_eq_product r6 i (by simp [r6, TSKRule.addCondition, TSKRule.mk0])]
  simp [antecedentProduct, r6, TSKRule.addCondition, TSKRule.mk0, is_daytime]

/-- The rule list installed by `setupIrrigationRules` on a fresh controller. -/
theorem irrigation_rules_eq :
    (setupIrrigationRules TSKController.empty).rules = [r1, r2, r3, r4, r5, r6] := by
  simp [setupIrrigationRules, TSKController.addRule, TSKController.empty]

/-- The "wet" soil set is at least one quarter from 70 on. -/
theorem soil_wet_on_wet_range (s : ℚ) (h : 70 ≤ s) : 1 / 4 ≤ SOIL_WET.getMembership s := by
  by_cases h100 : 100 ≤ s
  · norm_num [SOIL_WET, FuzzyTriangle.getMembership, h100]
  · have h1 : ¬ (s < 60 ∨ 100 < s) := by
      push_neg
      exact ⟨by linarith, (not_le.mp h100).le⟩
    simp only [SOIL_WET, FuzzyTriangle.getMembership]
    norm_num [h100, h1, (not_le.mp h100).le]
    rw [le_div_iff₀ (by norm_num)]
    linarith

/-- The "dry" soil set is 0 from 40 on. -/
theorem soil_dry_zero_high (s : ℚ) (h : 40 ≤ s) : SOIL_DRY.getMembership s = 0 := by
  rcases eq_or_lt_of_le h with h1 | h1
  · subst h1
    norm_num [SOIL_DRY, FuzzyTriangle.getMembership]
  · rw [triangle_right_of_support SOIL_DRY s (by norm_num [SOIL_DRY]) (by norm_num [SOIL_DRY]) h1]
    norm_num [SOIL_DRY]

/-- The "ok" soil set is 0 from 70 on. -/
theorem soil_ok_zero_high (s : ℚ) (h : 70 ≤ s) : SOIL_OK.getMembership s = 0 := by
  rcases eq_or_lt_of_le h with h1 | h1
  · subst h1
    norm_num [SOIL_OK, FuzzyTriangle.getMembership]
  · rw [triangle_right_of_support SOIL_OK s (by norm_num [SOIL_OK]) (by norm_num [SOIL_OK]) h1]
    norm_num [SOIL_OK]

/-- The daytime set is 0 up to 6 and from 21 on. -/
theorem time_day_zero_night (x : ℚ) (h : x ≤ 6 ∨ 21 ≤ x) : TIME_DAY.getMembership x = 0 := by
  rcases h with h | h
  · rcases eq_or_lt_of_le h with h1 | h1
    · subst h1
      norm_num [TIME_DAY, FuzzyTrapezoid.getMembership]
    · exact trapezoid_outside TIME_DAY x (Or.inl h1)
  · rcases eq_or_lt_of_le h with h1 | h1
    · subst h1
      norm_num [TIME_DAY, FuzzyTrapezoid.getMembership]
    · exact trapezoid_outside TIME_DAY x (Or.inr h1)

/-- The controller built by `setupIrrigationRules` from a fresh one. -/
theorem irrigation_controller_eq :
    setupIrrigationRules TSKController.empty = TSKController.mk [r1, r2, r3, r4, r5, r6] := by
  simp [setupIrrigationRules, TSKController.addRule, TSKController.empty]

/-! ## Helper lemmas on the binary model -/

/-- The `float` datum 0. -/
theorem lit_zero : Binary.lit 0 = FloatVal.fin 0 := by decide!

/-- The `float` datum 10. -/
theorem lit_ten : Binary.lit 10 = FloatVal.fin 10 := by decide!

/-- The `double` constant `1e-6` is `4722366482869645 / 2 ^ 72`, just below the decimal
fraction. -/
theorem toF64_epsilon :
    toF64 (1 / 1000000) = FloatVal.fin (4722366482869645 / 4722366482869645213696) := by
  decide!

/-- Rounding never produces NaN. -/
theorem roundFloat_ne_nan (p : ℕ) (emin emax : ℤ) (q : ℚ) :
    roundFloat p emin emax q ≠ FloatVal.nan := by
  unfold roundFloat
  split_ifs <;> simp

/-- The conversion to `float` produces NaN only from NaN. -/
theorem castF32_ne_nan (x : FloatVal) (h : x ≠ FloatVal.nan) :
    x.castF32 ≠ FloatVal.nan := by
  cases x with
  | nan => exact absurd rfl h
  | negInf => simp [FloatVal.castF32]
  | posInf => simp [FloatVal.castF32]
  | fin q => exact roundFloat_ne_nan 24 (-126) 127 q

/-- The clamp returns NaN on NaN and a number of `[0, 10]` on every other datum. -/
theorem clampResult_cases (r : FloatVal) :
    (r = FloatVal.nan ∧ Binary.clampResult r = FloatVal.nan) ∨
      Binary.inOutputRange (Binary.clampResult r) = true := by
  cases r with
  | nan =>
    left
    simp [Binary.clampResult, FloatVal.lt, lit_zero, lit_ten]
  | negInf =>
    right
    simp [Binary.clampResult, FloatVal.lt, lit_zero, lit_ten, Binary.inOutputRange]
  | posInf =>
    right
    simp [Binary.clampResult, FloatVal.lt, lit_zero, lit_ten, Binary.inOutputRange]
  | fin q =>
    right
    simp only [Binary.clampResult, FloatVal.lt, lit_zero, lit_ten]
    by_cases h1 : q < 0
    · simp [h1, Binary.inOutputRange]
    · by_cases h2 : 10 < q
      · simp [h1, h2, Binary.inOutputRange]
      · simp [h1, h2, Binary.inOutputRange, not_lt.mp h1, not_lt.mp h2]

/-- C1: when every antecedent degree lies in `[0, 1]` and the sum of the rule weights
over all rules exceeds `1e-6`, `compute` returns the sum of weight times output divided
by the sum of weights, clamped once to `[0, 10]`, with weight and output as returned by
`TSKRule.evaluate`. -/
theorem compute_weighted_average (ctrl : TSKController) (inputs : SystemInputs)
    (hdeg : ∀ r ∈ ctrl.rules, ∀ f ∈ r.antecedents, 0 ≤ f inputs ∧ f inputs ≤ 1)
    (hsum : weightSum ctrl.rules inputs > 1 / 1000000) :
    ctrl.compute inputs =
      clampOutput (weightedOutputSum ctrl.rules inputs / weightSum ctrl.rules inputs) := by
  have hall := firing_eq_all ctrl.rules inputs
    (fun r hr => ruleWeight_nonneg r inputs (hdeg r hr))
  rw [compute_eq_firing, hall.1, hall.2, if_neg (not_lt.mpr hsum.le)]

/-- In the exact model, where every value is a number, the value returned by `compute`
lies in `[0, 10]` for every rule list and every input record. -/
theorem compute_in_range (ctrl : TSKController) (inputs : SystemInputs) :
    0 ≤ ctrl.compute inputs ∧ ctrl.compute inputs ≤ 10 := by
  simp only [TSKController.compute]
  split_ifs with h1 h2 h3
  · norm_num
  · norm_num
  · norm_num
  · exact ⟨not_lt.mp h2, not_lt.mp h3⟩

/-- C4: for a rule with at least one antecedent, `evaluate` returns as weight the product
of all antecedent degrees in declared order (the early exit of the loop included), and as
output the consequent value when the weight is positive and 0 when the weight is 0; in
the latter case the result is `(0, 0)` whatever consequent the rule carries. -/
theorem evaluate_weight_and_output (r : TSKRule) (inputs : SystemInputs)
    (hne : r.antecedents ≠ []) :
    (r.evaluate inputs).1 = antecedentProduct r inputs ∧
      ((r.evaluate inputs).1 > 0 → (r.evaluate inputs).2 = r.consequent inputs) ∧
      ((r.evaluate inputs).1 = 0 → (r.evaluate inputs).2 = 0) ∧
      ((r.evaluate inputs).1 = 0 →
        ∀ g : ConsequentFunc, ({ r with consequent := g } : TSKRule).evaluate inputs = (0, 0)) := by
  have hemp : r.antecedents.isEmpty = false := by
    cases hr : r.antecedents with
    | nil => exact absurd hr hne
    | cons f rest => rfl
  refine ⟨ruleWeight_eq_product r inputs hne, ?_, ?_, ?_⟩
  · intro hpos
    simp only [TSKRule.evaluate, hemp, Bool.false_eq_true, if_false] at hpos ⊢
    rw [if_pos hpos]
  · intro h0
    exact ruleOutput_of_weight_zero r inputs h0
  · intro h0 g
    simp only [TSKRule.evaluate, hemp, Bool.false_eq_true, if_false] at h0 ⊢
    rw [h0]
    simp

/-! ## Claims on the membership functions -/

/-- C5: for a triangle with `a ≤ b ≤ c` and a trapezoid with `a ≤ b ≤ c ≤ d`, the
membership of every `x` is at least 0 and at most 1. -/
theorem membership_in_unit_interval (t : FuzzyTriangle) (z : FuzzyTrapezoid) (x : ℚ)
    (ht : t.a ≤ t.b ∧ t.b ≤ t.c) (hz : z.a ≤ z.b ∧ z.b ≤ z.c ∧ z.c ≤ z.d) :
    (0 ≤ t.getMembership x ∧ t.getMembership x ≤ 1) ∧
      (0 ≤ z.getMembership x ∧ z.getMembership x ≤ 1) :=
  ⟨triangle_bounds t x ht.1, trapezoid_bounds z x hz.1 hz.2.2⟩

/-- C6, as amended: for a triangle with `a ≤ b ≤ c` and `x` outside `[a, c]`, the
membership is 0, except on the open side of a shoulder, where it is 1: `x < a` with
`a = b < c`, or `x > c` with `a < b = c`. -/
theorem triangle_outside_support (t : FuzzyTriangle) (x : ℚ)
    (ht : t.a ≤ t.b ∧ t.b ≤ t.c) (hx : x < t.a ∨ x > t.c) :
    t.getMembership x =
      if (x < t.a ∧ t.a = t.b ∧ t.b < t.c) ∨ (x > t.c ∧ t.a < t.b ∧ t.b = t.c) then 1
      else 0 := by
  obtain ⟨hab, hbc⟩ := ht
  rcases hx with hx | hx
  · rw [triangle_left_of_support t x hab hbc hx]
    have hc : ¬ x > t.c := by
      have := le_trans hab hbc
      exact not_lt.mpr (le_trans hx.le this)
    simp only [hx, hc, true_and, false_and, or_false]
  · rw [triangle_right_of_support t x hab hbc hx]
    have ha : ¬ x < t.a := by
      have := le_trans hab hbc
      exact not_lt.mpr (le_trans this (le_of_lt hx))
    simp only [hx, ha, true_and, false_and, false_or]

/-- C7: a left shoulder (`a = b < c`) yields 1 at every `x ≤ b`, and a right shoulder
(`a < b = c`) yields 1 at every `y ≥ b`. -/
theorem shoulder_plateau (l r : FuzzyTriangle) (x y : ℚ)
    (hl : l.a = l.b ∧ l.b < l.c) (hx : x ≤ l.b)
    (hr : r.a < r.b ∧ r.b = r.c) (hy : y ≥ r.b) :
    l.getMembership x = 1 ∧ r.getMembership y = 1 := by
  obtain ⟨la, lb, lc⟩ := l
  obtain ⟨ra, rb, rc⟩ := r
  simp only at hl hx hr hy
  obtain ⟨h1, h2⟩ := hl
  obtain ⟨h3, h4⟩ := hr
  subst h1 h4
  constructor
  · simp [FuzzyTriangle.getMembership, h2.ne, hx]
  · simp [FuzzyTriangle.getMembership, h3.ne, hy]

/-- C8: for a trapezoid with `a ≤ b ≤ c ≤ d` the membership equals the reference
piecewise function: 0 for `x < a` or `x > d`, 1 for `b ≤ x ≤ c`, `(x-a)/(b-a)` for
`a ≤ x < b`, `(d-x)/(d-c)` for `c < x ≤ d`; with `a = b` it steps from 0 below `a` to
1 at `a`, and with `c = d` from 1 at `d` to 0 above `d`. -/
theorem trapezoid_piecewise (z : FuzzyTrapezoid) (x : ℚ)
    (hz : z.a ≤ z.b ∧ z.b ≤ z.c ∧ z.c ≤ z.d) :
    z.getMembership x = trapezoidReference z x ∧
      ((x < z.a ∨ x > z.d) → z.getMembership x = 0) ∧
      ((z.b ≤ x ∧ x ≤ z.c) → z.getMembership x = 1) ∧
      ((z.a ≤ x ∧ x < z.b) → z.getMembership x = (x - z.a) / (z.b - z.a)) ∧
      ((z.c < x ∧ x ≤ z.d) → z.getMembership x = (z.d - x) / (z.d - z.c)) ∧
      (z.a = z.b → (x < z.a → z.getMembership x = 0) ∧ z.getMembership z.a = 1) ∧
      (z.c = z.d → (x > z.d → z.getMembership x = 0) ∧ z.getMembership z.d = 1) := by
  obtain ⟨hab, hbc, hcd⟩ := hz
  refine ⟨?_, ?_, ?_, ?_, ?_, ?_, ?_⟩
  · by_cases h1 : x < z.a ∨ x > z.d
    · simp [FuzzyTrapezoid.getMembership, trapezoidReference, h1]
    · by_cases h2 : z.b ≤ x ∧ x ≤ z.c
      · simp [FuzzyTrapezoid.getMembership, trapezoidReference, h1, h2]
      · have h1' := h1
        push_neg at h1'
        by_cases h3 : x < z.b
        · have h4 : ¬ z.b ≤ x := not_le.mpr h3
          have h5 : z.b ≠ z.a := by
            intro he
            rw [he] at h4
            exact h4 h1'.1
          simp [FuzzyTrapezoid.getMembership, trapezoidReference, h1, h3, h4, h5, h1'.1]
        · have h4 : z.b ≤ x := not_lt.mp h3
          have h6 : z.c < x := by
            by_contra hc
            exact h2 ⟨h4, not_lt.mp hc⟩
          have h7 : ¬ x ≤ z.c := not_le.mpr h6
          have h5 : z.d ≠ z.c := by
            intro he
            rw [he] at h1'
            exact h7 h1'.2
          simp [FuzzyTrapezoid.getMembership, trapezoidReference, h1, h3, h4, h5, h6, h7, h1'.2]
  · exact trapezoid_outside z x
  · intro h
    exact trapezoid_plateau z x hab hcd h.1 h.2
  · intro h
    have h1 : ¬ (x < z.a ∨ x > z.d) := by
      push_neg
      exact ⟨h.1, by linarith⟩
    have h2 : ¬ z.b ≤ x := not_le.mpr h.2
    have h3 : z.b ≠ z.a := by
      intro he
      rw [he] at h2
      exact h2 h.1
    simp [FuzzyTrapezoid.getMembership, h1, h2, h.2, h3]
  · intro h
    have h1 : ¬ (x < z.a ∨ x > z.d) := by
      push_neg
      exact ⟨by linarith, h.2⟩
    have h2 : ¬ x ≤ z.c := not_le.mpr h.1
    have h3 : z.d ≠ z.c := by
      intro he
      rw [he] at h
      exact h2 h.2
    have h4 : ¬ x < z.b := by linarith
    simp [FuzzyTrapezoid.getMembership, h1, h2, h.1, h3, h4]
  · intro he
    refine ⟨fun h => trapezoid_outside z x (Or.inl h), ?_⟩
    exact trapezoid_plateau z z.a hab hcd (le_of_eq he.symm) (le_trans hab hbc)
  · intro he
    refine ⟨fun h => trapezoid_outside z x (Or.inr h), ?_⟩
    exact trapezoid_plateau z z.d hab hcd (le_trans hbc hcd) (le_of_eq he.symm)

/-- C9: a triangle with `a ≤ b ≤ c` (in all four cases of coincidence) yields 1 at its
peak `b`, and a trapezoid with `a ≤ b ≤ c ≤ d` yields 1 at every `x` in `[b, c]`. -/
theorem peak_and_plateau (t : FuzzyTriangle) (z : FuzzyTrapezoid) (x : ℚ)
    (ht : t.a ≤ t.b ∧ t.b ≤ t.c) (hz : z.a ≤ z.b ∧ z.b ≤ z.c ∧ z.c ≤ z.d)
    (hx : z.b ≤ x ∧ x ≤ z.c) :
    t.getMembership t.b = 1 ∧ z.getMembership x = 1 := by
  refine ⟨?_, trapezoid_plateau z x hz.1 hz.2.2 hx.1 hx.2⟩
  obtain ⟨a, b, c⟩ := t
  simp only at ht
  obtain ⟨hab, hbc⟩ := ht
  simp only [FuzzyTriangle.getMembership]
  rcases eq_or_lt_of_le hab with h1 | h1 <;> rcases eq_or_lt_of_le hbc with h2 | h2
  · subst h1 h2
    simp
  · subst h1
    simp [h2.ne]
  · subst h2
    simp [h1.ne]
  · have h3 : ¬ c < b := not_lt.mpr h2.le
    have h4 : ¬ b < a := not_lt.mpr h1.le
    have h5 : b - a ≠ 0 := sub_ne_zero.mpr h1.ne.symm
    simp [h1.ne, h2.ne, h3, h4, div_self h5]

/-! ## Claims on the irrigation rule base -/

/-- C11: with the six irrigation rules, for every soil moisture of at least 70 (so for
80) `compute` returns 0 whatever the time of day, temperature and humidity are, and
rule 1 is the only rule with non-zero weight. -/
theorem wet_soil_stops (i : SystemInputs) (hs : 70 ≤ i.soil_moisture) :
    ((setupIrrigationRules TSKController.empty).rules.map
        fun r => decide ((r.evaluate i).1 ≠ 0)) = [true, false, false, false, false, false] ∧
      (setupIrrigationRules TSKController.empty).compute i = 0 := by
  have hwet := soil_wet_on_wet_range i.soil_moisture hs
  have hdry := soil_dry_zero_high i.soil_moisture (by linarith)
  have hok := soil_ok_zero_high i.soil_moisture hs
  have w1 : (r1.evaluate i).1 ≠ 0 := by
    have := ruleWeight_r1 i
    unfold ruleWeight at this
    rw [this]
    linarith
  have w2 : (r2.evaluate i).1 = 0 := by
    have := ruleWeight_r2 i
    unfold ruleWeight at this
    rw [this, hdry, zero_mul]
  have w3 : (r3.evaluate i).1 = 0 := by
    have := ruleWeight_r3 i
    unfold ruleWeight at this
    rw [this, hdry, zero_mul]
  have w4 : (r4.evaluate i).1 = 0 := by
    have := ruleWeight_r4 i
    unfold ruleWeight at this
    rw [this, hdry, zero_mul]
  have w5 : (r5.evaluate i).1 = 0 := by
    have := ruleWeight_r5 i
    unfold ruleWeight at this
    rw [this, hok, zero_mul]
  have w6 : (r6.evaluate i).1 = 0 := by
    have := ruleWeight_r6 i
    unfold ruleWeight at this
    rw [this, hok, zero_mul]
  constructor
  · simp [irrigation_rules_eq, w1, w2, w3, w4, w5, w6]
  · apply compute_zero_of_outputs_zero
    intro r hr hpos
    rw [irrigation_rules_eq] at hr
    simp only [List.mem_cons, List.mem_singleton, List.not_mem_nil, or_false] at hr
    rcases hr with rfl | rfl | rfl | rfl | rfl | rfl
    · rw [ruleOutput_eq]
      simp [r1, TSKRule.addCondition, TSKRule.mk0]
    · exact absurd hpos (by unfold ruleWeight; rw [w2]; exact lt_irrefl 0)
    · exact absurd hpos (by unfold ruleWeight; rw [w3]; exact lt_irrefl 0)
    · exact absurd hpos (by unfold ruleWeight; rw [w4]; exact lt_irrefl 0)
    · exact absurd hpos (by unfold ruleWeight; rw [w5]; exact lt_irrefl 0)
    · exact absurd hpos (by unfold ruleWeight; rw [w6]; exact lt_irrefl 0)

/-- C20: with the six irrigation rules, for every time of day up to 6 or from 21 on,
`compute` returns 0 whatever the soil moisture, temperature and humidity are. -/
theorem night_never_waters (i : SystemInputs) (ht : i.time_of_day ≤ 6 ∨ 21 ≤ i.time_of_day) :
    (setupIrrigationRules TSKController.empty).compute i = 0 := by
  have hday := time_day_zero_night i.time_of_day ht
  apply compute_zero_of_outputs_zero
  intro r hr hpos
  rw [irrigation_rules_eq] at hr
  simp only [List.mem_cons, List.mem_singleton, List.not_mem_nil, or_false] at hr
  rcases hr with rfl | rfl | rfl | rfl | rfl | rfl
  · rw [ruleOutput_eq]
    simp [r1, TSKRule.addCondition, TSKRule.mk0]
  · rw [ruleWeight_r2, hday] at hpos
    simp at hpos
  · rw [ruleWeight_r3, hday] at hpos
    simp at hpos
  · rw [ruleWeight_r4, hday] at hpos
    simp at hpos
  · rw [ruleWeight_r5, hday] at hpos
    simp at hpos
  · rw [ruleWeight_r6, hday] at hpos
    simp at hpos

/-- C12: with the six irrigation rules, at soil moisture 50 and time of day 14, for
every temperature: at humidity 20 rule 5 is the only rule with non-zero weight and
`compute` returns 1.5; at humidity 90 rule 6 is the only rule with non-zero weight and
`compute` returns 0. -/
theorem ok_soil_humidity_rules (temp : ℚ) :
    (((setupIrrigationRules TSKController.empty).rules.map fun r => decide ((r.evaluate
          { soil_moisture := 50, time_of_day := 14, temperature := temp, humidity := 20 }).1 ≠ 0))
        = [false, false, false, false, true, false] ∧
      (setupIrrigationRules TSKController.empty).compute
        { soil_moisture := 50, time_of_day := 14, temperature := temp, humidity := 20 }
        = 15 / 10) ∧
    (((setupIrrigationRules TSKController.empty).rules.map fun r => decide ((r.evaluate
          { soil_moisture := 50, time_of_day := 14, temperature := temp, humidity := 90 }).1 ≠ 0))
        = [false, false, false, false, false, true] ∧
      (setupIrrigationRules TSKController.empty).compute
        { soil_moisture := 50, time_of_day := 14, temperature := temp, humidity := 90 }
        = 0) := by
  have hwet : SOIL_WET.getMembership 50 = 0 := by norm_num [SOIL_WET, FuzzyTriangle.getMembership]
  have hdry : SOIL_DRY.getMembership 50 = 0 := by norm_num [SOIL_DRY, FuzzyTriangle.getMembership]
  have hok : SOIL_OK.getMembership 50 = 1 := by norm_num [SOIL_OK, FuzzyTriangle.getMembership]
  have hday : TIME_DAY.getMembership 14 = 1 := by norm_num [TIME_DAY, FuzzyTrapezoid.getMembership]
  have hl20 : HUM_LOW.getMembership 20 = 1 / 2 := by
    norm_num [HUM_LOW, FuzzyTriangle.getMembership]
  have hh20 : HUM_HIGH.getMembership 20 = 0 := by
    norm_num [HUM_HIGH, FuzzyTriangle.getMembership]
  have hl90 : HUM_LOW.getMembership 90 = 0 := by
    norm_num [HUM_LOW, FuzzyTriangle.getMembership]
  have hh90 : HUM_HIGH.getMembership 90 = 2 / 3 := by
    norm_num [HUM_HIGH, FuzzyTriangle.getMembership]
  constructor
  · have w1 := ruleWeight_r1 ⟨50, 14, temp, 20⟩
    have w2 := ruleWeight_r2 ⟨50, 14, temp, 20⟩
    have w3 := ruleWeight_r3 ⟨50, 14, temp, 20⟩
    have w4 := ruleWeight_r4 ⟨50, 14, temp, 20⟩
    have w5 := ruleWeight_r5 ⟨50, 14, temp, 20⟩
    have w6 := ruleWeight_r6 ⟨50, 14, temp, 20⟩
    simp only [hwet, hdry, hok, hday, hl20, hh20, zero_mul, mul_zero, one_mul, mul_one]
      at w1 w2 w3 w4 w5 w6
    constructor
    · unfold ruleWeight at w1 w2 w3 w4 w5 w6
      simp [irrigation_rules_eq, w1, w2, w3, w4, w5, w6]
    · rw [irrigation_controller_eq]
      have hsole :=
        compute_sole_firing [r1, r2, r3, r4] [r6] r5 ⟨50, 14, temp, 20⟩
          (by
            intro r hr
            simp only [List.cons_append, List.nil_append, List.mem_cons, List.mem_singleton,
              List.not_mem_nil, or_false] at hr
            rcases hr with rfl | rfl | rfl | rfl | rfl
            · exact w1.le
            · exact w2.le
            · exact w3.le
            · exact w4.le
            · exact w6.le)
          (by rw [w5]; norm_num)
      have hout : ruleOutput ⟨50, 14, temp, 20⟩ r5 = 15 / 10 := by
        rw [ruleOutput_eq, w5]
        norm_num [r5, TSKRule.addCondition, TSKRule.mk0]
      rw [hout] at hsole
      rw [show (TSKController.mk [r1, r2, r3, r4, r5, r6]) =
        TSKController.mk ([r1, r2, r3, r4] ++ r5 :: [r6]) from rfl, hsole]
      norm_num [clampOutput]
  · have w1 := ruleWeight_r1 ⟨50, 14, temp, 90⟩
    have w2 := ruleWeight_r2 ⟨50, 14, temp, 90⟩
    have w3 := ruleWeight_r3 ⟨50, 14, temp, 90⟩
    have w4 := ruleWeight_r4 ⟨50, 14, temp, 90⟩
    have w5 := ruleWeight_r5 ⟨50, 14, temp, 90⟩
    have w6 := ruleWeight_r6 ⟨50, 14, temp, 90⟩
    simp only [hwet, hdry, hok, hday, hl90, hh90, zero_mul, mul_zero, one_mul, mul_one]
      at w1 w2 w3 w4 w5 w6
    constructor
    · unfold ruleWeight at w1 w2 w3 w4 w5 w6
      simp [irrigation_rules_eq, w1, w2, w3, w4, w5, w6]
    · rw [irrigation_controller_eq]
      have hsole :=
        compute_sole_firing [r1, r2, r3, r4, r5] [] r6 ⟨50, 14, temp, 90⟩
          (by
            intro r hr
            simp only [List.append_nil, List.mem_cons, List.mem_singleton,
              List.not_mem_nil, or_false] at hr
            rcases hr with rfl | rfl | rfl | rfl | rfl
            · exact w1.le
            · exact w2.le
            · exact w3.le
            · exact w4.le
            · exact w5.le)
          (by rw [w6]; norm_num)
      have hout : ruleOutput ⟨50, 14, temp, 90⟩ r6 = 0 := by
        rw [ruleOutput_eq, w6]
        norm_num [r6, TSKRule.addCondition, TSKRule.mk0]
      rw [hout] at hsole
      rw [show (TSKController.mk [r1, r2, r3, r4, r5, r6]) =
        TSKController.mk ([r1, r2, r3, r4, r5] ++ r6 :: []) from rfl, hsole]
      norm_num [clampOutput]

/-! ## Claims on rule order, totality and degenerate cases -/

/-- C13: `compute` returns the same value on a rule list and on every permutation of
it, for every input record. -/
theorem compute_perm_invariant (l₁ l₂ : List TSKRule) (inputs : SystemInputs)
    (hperm : l₁.Perm l₂) :
    (TSKController.mk l₁).compute inputs = (TSKController.mk l₂).compute inputs := by
  have hw : firingWeightSum l₁ inputs = firingWeightSum l₂ inputs :=
    ((hperm.filter _).map _).sum_eq
  have hn : firingOutputSum l₁ inputs = firingOutputSum l₂ inputs :=
    ((hperm.filter _).map _).sum_eq
  rw [compute_eq_firing, compute_eq_firing]
  simp only [hw, hn]

/-- C14: for all parameter values, ordered or not, and every `x`, neither membership
function reaches a division by zero: the division-checked bodies always return a value,
and it is the value of `getMembership`. -/
theorem getMembership_never_divides_by_zero (t : FuzzyTriangle) (z : FuzzyTrapezoid) (x : ℚ) :
    t.getMembershipChecked x = some (t.getMembership x) ∧
      z.getMembershipChecked x = some (z.getMembership x) := by
  constructor
  · unfold FuzzyTriangle.getMembershipChecked FuzzyTriangle.getMembership
    by_cases h1 : t.a = t.b ∧ t.b = t.c
    · rw [if_pos h1, if_pos h1]
    · rw [if_neg h1, if_neg h1]
      by_cases h2 : t.a = t.b ∧ x ≤ t.b
      · rw [if_pos h2, if_pos h2]
      · rw [if_neg h2, if_neg h2]
        by_cases h3 : t.b = t.c ∧ x ≥ t.b
        · rw [if_pos h3, if_pos h3]
        · rw [if_neg h3, if_neg h3]
          by_cases h4 : x < t.a ∨ x > t.c
          · rw [if_pos h4, if_pos h4]
          · rw [if_neg h4, if_neg h4]
            by_cases h5 : x ≤ t.b
            · rw [if_pos h5, if_pos h5]
              apply checkedDiv_of_ne
              intro h0
              exact h2 ⟨(sub_eq_zero.mp h0).symm, h5⟩
            · rw [if_neg h5, if_neg h5]
              apply checkedDiv_of_ne
              intro h0
              exact h3 ⟨(sub_eq_zero.mp h0).symm, (not_le.mp h5).le⟩
  · unfold FuzzyTrapezoid.getMembershipChecked FuzzyTrapezoid.getMembership
    by_cases h1 : x < z.a ∨ x > z.d
    · rw [if_pos h1, if_pos h1]
    · rw [if_neg h1, if_neg h1]
      by_cases h2 : x ≥ z.b ∧ x ≤ z.c
      · rw [if_pos h2, if_pos h2]
      · rw [if_neg h2, if_neg h2]
        by_cases h3 : x < z.b
        · rw [if_pos h3, if_pos h3]
          by_cases h4 : z.b = z.a
          · rw [if_pos h4, if_pos h4]
          · rw [if_neg h4, if_neg h4]
            exact checkedDiv_of_ne _ _ fun h0 => h4 (sub_eq_zero.mp h0)
        · rw [if_neg h3, if_neg h3]
          by_cases h5 : x > z.c
          · rw [if_pos h5, if_pos h5]
            by_cases h6 : z.d = z.c
            · rw [if_pos h6, if_pos h6]
            · rw [if_neg h6, if_neg h6]
              exact checkedDiv_of_ne _ _ fun h0 => h6 (sub_eq_zero.mp h0)
          · rw [if_neg h5, if_neg h5]

/-- C15: `compute` returns 0 on a controller with an empty rule collection, and so on
every controller right after `clearRules`, for every input record. -/
theorem compute_empty_rule_base (ctrl : TSKController) (inputs : SystemInputs) :
    TSKController.empty.compute inputs = 0 ∧
      ctrl.clearRules.rules = [] ∧
      ctrl.clearRules.compute inputs = 0 := by
  refine ⟨?_, rfl, ?_⟩ <;>
    norm_num [TSKController.compute, TSKController.empty, TSKController.clearRules]

/-- C16: a rule with zero antecedents evaluates to weight 0 and output 0 for every
consequent and input, and contributes nothing to `compute`: it leaves the accumulator
unchanged, and removing it from any position of the rule list does not change the
result. -/
theorem evaluate_no_antecedents (c : ConsequentFunc) (inputs : SystemInputs)
    (pre post : List TSKRule) (acc : ℚ × ℚ) :
    (TSKRule.mk0 c).evaluate inputs = (0, 0) ∧
      TSKController.accumulate inputs acc (TSKRule.mk0 c) = acc ∧
      (TSKController.mk (pre ++ TSKRule.mk0 c :: post)).compute inputs =
        (TSKController.mk (pre ++ post)).compute inputs := by
  have he : (TSKRule.mk0 c).evaluate inputs = (0, 0) := by
    simp [TSKRule.evaluate, TSKRule.mk0]
  refine ⟨he, ?_, ?_⟩
  · simp [TSKController.accumulate, he]
  · rw [compute_eq_firing, compute_eq_firing]
    simp [firingWeightSum, firingOutputSum, List.filter_append, List.filter_cons, ruleWeight,
      he]

/-- C17: the degenerate triangle `(a, a, a)` yields 1 at `a` and 0 at every `x`
different from `a`. -/
theorem degenerate_triangle_indicator (a x : ℚ) (hx : x ≠ a) :
    (FuzzyTriangle.mk a a a).getMembership a = 1 ∧
      (FuzzyTriangle.mk a a a).getMembership x = 0 := by
  simp [FuzzyTriangle.getMembership, hx]

/-- C18, as amended: the "cold" temperature set `(0, 0, 16, 20)` has its plateau on
`[0, 16]`: it yields 1 at every temperature `x` with `0 ≤ x ≤ 16`, 0 at every temperature
below 0, the falling ramp `(20 - z) / (20 - 16)` for `16 < z ≤ 20`, and 0 at 20. -/
theorem temp_cold_plateau (x y z : ℚ) (hx : 0 ≤ x ∧ x ≤ 16) (hy : y < 0)
    (hz : 16 < z ∧ z ≤ 20) :
    TEMP_COLD.getMembership x = 1 ∧ TEMP_COLD.getMembership y = 0 ∧
      TEMP_COLD.getMembership z = (20 - z) / (20 - 16) ∧
      TEMP_COLD.getMembership 20 = 0 := by
  refine ⟨?_, ?_, ?_, ?_⟩
  · exact trapezoid_plateau TEMP_COLD x (by norm_num [TEMP_COLD]) (by norm_num [TEMP_COLD])
      hx.1 hx.2
  · exact trapezoid_outside TEMP_COLD y (Or.inl hy)
  · have h1 : ¬ (z < 0 ∨ 20 < z) := by
      push_neg
      exact ⟨by linarith [hz.1], hz.2⟩
    have h2 : ¬ z ≤ 16 := not_le.mpr hz.1
    have h3 : ¬ z < 0 := by linarith [hz.1]
    have h4 : ¬ 20 < z := not_lt.mpr hz.2
    simp only [TEMP_COLD, FuzzyTrapezoid.getMembership]
    norm_num [h2, h3, h4, hz.1]
  · norm_num [TEMP_COLD, FuzzyTrapezoid.getMembership]

/-- C2, as amended: on `float` and `double` data `compute` returns either NaN or a number
of `[0, 10]`, and it returns a number of `[0, 10]` whenever the accumulated numerator and
denominator are finite numbers. -/
theorem compute_nan_or_in_range (ctrl : Binary.TSKController) (inputs : Binary.SystemInputs) :
    (ctrl.compute inputs = FloatVal.nan ∨ Binary.inOutputRange (ctrl.compute inputs) = true) ∧
      ((∃ n d : ℚ, ctrl.accumulators inputs = (FloatVal.fin n, FloatVal.fin d)) →
        Binary.inOutputRange (ctrl.compute inputs) = true) := by
  constructor
  · unfold Binary.TSKController.compute
    simp only
    split_ifs with hg
    · right
      simp [lit_zero, Binary.inOutputRange]
    · rcases clampResult_cases
        (FloatVal.castF32 (Binary.div64 (ctrl.accumulators inputs).1
          (ctrl.accumulators inputs).2)) with h | h
      · exact Or.inl h.2
      · exact Or.inr h
  · rintro ⟨n, d, hacc⟩
    unfold Binary.TSKController.compute
    simp only [hacc]
    split_ifs with hg
    · simp [lit_zero, Binary.inOutputRange]
    · have hd : d ≠ 0 := by
        intro h0
        apply hg
        rw [h0, toF64_epsilon]
        simp [FloatVal.lt]
      have hq : Binary.div64 (FloatVal.fin n) (FloatVal.fin d) ≠ FloatVal.nan := by
        simp only [Binary.div64, FloatVal.div, hd, if_false]
        exact roundFloat_ne_nan 53 (-1022) 1023 (n / d)
      rcases clampResult_cases
        (FloatVal.castF32 (Binary.div64 (FloatVal.fin n) (FloatVal.fin d))) with h | h
      · exact absurd h.1 (castF32_ne_nan _ hq)
      · exact h

/-- Instance of C1: the irrigation controller on a hot dry afternoon. -/
theorem compute_weighted_average_witness :
    weightSum irrigationController.rules hotDryAfternoon > 1 / 1000000 ∧
      irrigationController.compute hotDryAfternoon =
        clampOutput (weightedOutputSum irrigationController.rules hotDryAfternoon /
          weightSum irrigationController.rules hotDryAfternoon) := by
  have hs : weightSum irrigationController.rules hotDryAfternoon > 1 / 1000000 := by
    norm_num [weightSum, ruleWeight, irrigationController, hotDryAfternoon,
      setupIrrigationRules, TSKController.addRule, TSKController.empty, TSKRule.evaluate,
      TSKRule.weightLoop, r1, r2, r3, r4, r5, r6, TSKRule.addCondition, TSKRule.mk0,
      FuzzyTriangle.getMembership, FuzzyTrapezoid.getMembership, SOIL_DRY, SOIL_OK, SOIL_WET,
      TIME_DAY, TEMP_HOT, TEMP_AVG, TEMP_COLD, HUM_LOW, HUM_HIGH, is_daytime]
  refine ⟨hs, compute_weighted_average irrigationController hotDryAfternoon ?_ hs⟩
  norm_num [irrigationController, hotDryAfternoon, setupIrrigationRules,
    TSKController.addRule, TSKController.empty, r1, r2, r3, r4, r5, r6, TSKRule.addCondition,
    TSKRule.mk0, FuzzyTriangle.getMembership, FuzzyTrapezoid.getMembership, SOIL_DRY, SOIL_OK,
    SOIL_WET, TIME_DAY, TEMP_HOT, TEMP_AVG, TEMP_COLD, HUM_LOW, HUM_HIGH, is_daytime]

/-- Instance of C4: rule R2 on a hot dry afternoon. -/
theorem evaluate_weight_and_output_witness :
    r2.antecedents ≠ [] ∧
      ((r2.evaluate hotDryAfternoon).1 = antecedentProduct r2 hotDryAfternoon ∧
        ((r2.evaluate hotDryAfternoon).1 > 0 →
          (r2.evaluate hotDryAfternoon).2 = r2.consequent hotDryAfternoon) ∧
        ((r2.evaluate hotDryAfternoon).1 = 0 → (r2.evaluate hotDryAfternoon).2 = 0) ∧
        ((r2.evaluate hotDryAfternoon).1 = 0 →
          ∀ g : ConsequentFunc,
            ({ r2 with consequent := g } : TSKRule).evaluate hotDryAfternoon = (0, 0))) :=
  ⟨by simp [r2, TSKRule.addCondition, TSKRule.mk0],
    evaluate_weight_and_output r2 hotDryAfternoon
      (by simp [r2, TSKRule.addCondition, TSKRule.mk0])⟩

/-- Instance of C5: the "ok" soil set and the daytime set at 40. -/
theorem membership_in_unit_interval_witness :
    (SOIL_OK.a ≤ SOIL_OK.b ∧ SOIL_OK.b ≤ SOIL_OK.c) ∧
      (TIME_DAY.a ≤ TIME_DAY.b ∧ TIME_DAY.b ≤ TIME_DAY.c ∧ TIME_DAY.c ≤ TIME_DAY.d) ∧
      ((0 ≤ SOIL_OK.getMembership 40 ∧ SOIL_OK.getMembership 40 ≤ 1) ∧
        (0 ≤ TIME_DAY.getMembership 40 ∧ TIME_DAY.getMembership 40 ≤ 1)) :=
  ⟨by norm_num [SOIL_OK], by norm_num [TIME_DAY],
    membership_in_unit_interval SOIL_OK TIME_DAY 40 (by norm_num [SOIL_OK])
      (by norm_num [TIME_DAY])⟩

/-- Counterexample to C6 as stated: the "dry" soil set `(0, 0, 40)` has ordered
parameters, -5 lies outside `[0, 40]`, and the membership of -5 is 1, not 0. -/
theorem triangle_outside_support_fails :
    (SOIL_DRY.a ≤ SOIL_DRY.b ∧ SOIL_DRY.b ≤ SOIL_DRY.c) ∧
      ((-5 : ℚ) < SOIL_DRY.a ∨ (-5 : ℚ) > SOIL_DRY.c) ∧
      SOIL_DRY.getMembership (-5) = 1 ∧ SOIL_DRY.getMembership (-5) ≠ 0 := by
  norm_num [SOIL_DRY, FuzzyTriangle.getMembership]

/-- Instance of C6 as amended: the "dry" soil set at 50, right of its support. -/
theorem triangle_outside_support_witness :
    (SOIL_DRY.a ≤ SOIL_DRY.b ∧ SOIL_DRY.b ≤ SOIL_DRY.c) ∧
      ((50 : ℚ) < SOIL_DRY.a ∨ (50 : ℚ) > SOIL_DRY.c) ∧
      SOIL_DRY.getMembership 50 =
        if ((50 : ℚ) < SOIL_DRY.a ∧ SOIL_DRY.a = SOIL_DRY.b ∧ SOIL_DRY.b < SOIL_DRY.c) ∨
            ((50 : ℚ) > SOIL_DRY.c ∧ SOIL_DRY.a < SOIL_DRY.b ∧ SOIL_DRY.b = SOIL_DRY.c)
        then 1 else 0 :=
  ⟨by norm_num [SOIL_DRY], by norm_num [SOIL_DRY],
    triangle_outside_support SOIL_DRY 50 (by norm_num [SOIL_DRY]) (by norm_num [SOIL_DRY])⟩

/-- Instance of C7: the "dry" soil set below 0 and the "wet" soil set above 100. -/
theorem shoulder_plateau_witness :
    (SOIL_DRY.a = SOIL_DRY.b ∧ SOIL_DRY.b < SOIL_DRY.c) ∧ (-5 : ℚ) ≤ SOIL_DRY.b ∧
      (SOIL_WET.a < SOIL_WET.b ∧ SOIL_WET.b = SOIL_WET.c) ∧ (120 : ℚ) ≥ SOIL_WET.b ∧
      (SOIL_DRY.getMembership (-5) = 1 ∧ SOIL_WET.getMembership 120 = 1) :=
  ⟨by norm_num [SOIL_DRY], by norm_num [SOIL_DRY], by norm_num [SOIL_WET],
    by norm_num [SOIL_WET],
    shoulder_plateau SOIL_DRY SOIL_WET (-5) 120 (by norm_num [SOIL_DRY])
      (by norm_num [SOIL_DRY]) (by norm_num [SOIL_WET]) (by norm_num [SOIL_WET])⟩

/-- Instance of C8: the "cold" temperature set `(0, 0, 16, 20)` at 18: the value of the
falling ramp is one half. -/
theorem trapezoid_piecewise_witness :
    (TEMP_COLD.a ≤ TEMP_COLD.b ∧ TEMP_COLD.b ≤ TEMP_COLD.c ∧ TEMP_COLD.c ≤ TEMP_COLD.d) ∧
      TEMP_COLD.getMembership 18 = trapezoidReference TEMP_COLD 18 ∧
      TEMP_COLD.getMembership 18 = 1 / 2 :=
  ⟨by norm_num [TEMP_COLD],
    (trapezoid_piecewise TEMP_COLD 18 (by norm_num [TEMP_COLD])).1,
    by norm_num [TEMP_COLD, FuzzyTrapezoid.getMembership]⟩

/-- Instance of C9: the peak of the "ok" soil set and the plateau of the daytime set. -/
theorem peak_and_plateau_witness :
    (SOIL_OK.a ≤ SOIL_OK.b ∧ SOIL_OK.b ≤ SOIL_OK.c) ∧
      (TIME_DAY.a ≤ TIME_DAY.b ∧ TIME_DAY.b ≤ TIME_DAY.c ∧ TIME_DAY.c ≤ TIME_DAY.d) ∧
      (TIME_DAY.b ≤ 14 ∧ 14 ≤ TIME_DAY.c) ∧
      (SOIL_OK.getMembership SOIL_OK.b = 1 ∧ TIME_DAY.getMembership 14 = 1) :=
  ⟨by norm_num [SOIL_OK], by norm_num [TIME_DAY], by norm_num [TIME_DAY],
    peak_and_plateau SOIL_OK TIME_DAY 14 (by norm_num [SOIL_OK]) (by norm_num [TIME_DAY])
      (by norm_num [TIME_DAY])⟩

/-- Instance of C11: soil 80, time 14, temperature 25, humidity 50. -/
theorem wet_soil_stops_witness :
    70 ≤ wetAfternoon.soil_moisture ∧
      (setupIrrigationRules TSKController.empty).compute wetAfternoon = 0 :=
  ⟨by norm_num [wetAfternoon], (wet_soil_stops wetAfternoon (by norm_num [wetAfternoon])).2⟩

/-- Instance of C13: the irrigation rules in reverse order, on a hot dry afternoon. -/
theorem compute_perm_invariant_witness :
    [r6, r5, r4, r3, r2, r1].Perm [r1, r2, r3, r4, r5, r6] ∧
      (TSKController.mk [r6, r5, r4, r3, r2, r1]).compute hotDryAfternoon =
        (TSKController.mk [r1, r2, r3, r4, r5, r6]).compute hotDryAfternoon :=
  ⟨List.reverse_perm [r1, r2, r3, r4, r5, r6],
    compute_perm_invariant [r6, r5, r4, r3, r2, r1] [r1, r2, r3, r4, r5, r6] hotDryAfternoon
      (List.reverse_perm [r1, r2, r3, r4, r5, r6])⟩

/-- Instance of C17: the degenerate triangle `(5, 5, 5)` at 5 and at 7. -/
theorem degenerate_triangle_indicator_witness :
    (7 : ℚ) ≠ 5 ∧
      ((FuzzyTriangle.mk 5 5 5).getMembership 5 = 1 ∧
        (FuzzyTriangle.mk 5 5 5).getMembership 7 = 0) :=
  ⟨by norm_num, degenerate_triangle_indicator 5 7 (by norm_num)⟩

/-- Counterexample to C18 as stated: -5 degrees is at most 16, and the "cold"
temperature set `(0, 0, 16, 20)` yields 0 there, not 1: the range test `x < a` of the
trapezoid comes first. -/
theorem temp_cold_below_zero :
    (-5 : ℚ) ≤ 16 ∧ TEMP_COLD.getMembership (-5) = 0 ∧ TEMP_COLD.getMembership (-5) ≠ 1 := by
  norm_num [TEMP_COLD, FuzzyTrapezoid.getMembership]

/-- Instance of C18 as amended: 5 degrees on the plateau, -5 degrees below the support,
18 degrees on the falling ramp. -/
theorem temp_cold_plateau_witness :
    ((0 : ℚ) ≤ 5 ∧ (5 : ℚ) ≤ 16) ∧ (-5 : ℚ) < 0 ∧ ((16 : ℚ) < 18 ∧ (18 : ℚ) ≤ 20) ∧
      (TEMP_COLD.getMembership 5 = 1 ∧ TEMP_COLD.getMembership (-5) = 0 ∧
        TEMP_COLD.getMembership 18 = (20 - 18) / (20 - 16) ∧
        TEMP_COLD.getMembership 20 = 0) :=
  ⟨by norm_num, by norm_num, by norm_num,
    temp_cold_plateau 5 (-5) 18 (by norm_num) (by norm_num) (by norm_num)⟩

/-- Instance of C20: midnight with dry soil. -/
theorem night_never_waters_witness :
    (dryMidnight.time_of_day ≤ 6 ∨ 21 ≤ dryMidnight.time_of_day) ∧
      (setupIrrigationRules TSKController.empty).compute dryMidnight = 0 :=
  ⟨by norm_num [dryMidnight], night_never_waters dryMidnight (by norm_num [dryMidnight])⟩

/-- Counterexample to C2 as stated: with one rule of degree 1 whose consequent is NaN,
and with two rules of degree 2 whose consequents are `2 ^ 127` and `-2 ^ 127` (the
`float` products overflow to the two infinities), `compute` returns NaN, which is not a
number of `[0, 10]`. -/
theorem compute_in_range_fails :
    ((Binary.singleRule (Binary.lit 1) FloatVal.nan).compute (Binary.inputs 10 14 1000 20)
        = FloatVal.nan ∧
      (Binary.twoRules (Binary.lit 2) (Binary.lit (2 ^ 127)) (Binary.lit 2)
          (Binary.lit (-2 ^ 127))).compute (Binary.inputs 10 14 1000 20) = FloatVal.nan) ∧
    Binary.inOutputRange FloatVal.nan = false := by
  decide!

/-- Instance of C2 as amended: the irrigation controller at soil 10, time 14,
temperature 1000, humidity 20. -/
theorem compute_nan_or_in_range_witness :
    (∃ n d : ℚ, (Binary.setupIrrigationRules Binary.TSKController.empty).accumulators
        (Binary.inputs 10 14 1000 20) = (FloatVal.fin n, FloatVal.fin d)) ∧
      Binary.inOutputRange ((Binary.setupIrrigationRules Binary.TSKController.empty).compute
        (Binary.inputs 10 14 1000 20)) = true :=
  ⟨⟨0, 0, by decide!⟩,
    (compute_nan_or_in_range (Binary.setupIrrigationRules Binary.TSKController.empty)
      (Binary.inputs 10 14 1000 20)).2 ⟨0, 0, by decide!⟩⟩

end FuzzyFarm
